import Mathlib

/-!
Shallow embedding of the ChargeAI gateway (a metered proxy in front of an
LLM provider) and proofs about its billing, rate-limiting, caching and
streaming paths.  Money amounts are modelled as rationals, token counts as
naturals, and the fast (Redis) wallet entry for one API key as an
`Option Wallet`.  Each definition names the source function it embeds.
-/

namespace ChargeAI

/-! ## Pricing (src/lib/pricing.ts) -/

/-- Embeds `originalPricing`: per-model price per 1000 tokens. -/
def originalPricing (model : String) : Option ℚ :=
  if model = "gpt-3.5-turbo" then some (2/1000)
  else if model = "gpt-4" then some (3/100)
  else if model = "gpt-4o-mini" then some (6/10000)
  else if model = "gpt-4o" then some (15/1000)
  else none

/-- Embeds `discountedPricing`: every original price multiplied by 0.75
(25% discount). -/
def discountedPricing (model : String) : Option ℚ :=
  (originalPricing model).map (fun p => p * (3/4))

/-- Embeds `calculateCost`: unknown models fall back to the `"gpt-4o"`
price; the price is per 1000 tokens. -/
def calculateCost (model : String) (tokens : ℕ) : ℚ :=
  ((discountedPricing model).getD ((discountedPricing "gpt-4o").getD 0) * tokens) / 1000

/-! ## Wallets and the fast store -/

/-- A wallet document as stored in MongoDB and mirrored in Redis under
`wallet:<apiKey>` (src/lib/mongodb.ts, `WalletDocument`). -/
structure Wallet where
  userId : String
  balance : ℚ
deriving DecidableEq, Repr

/-- The fast-store (Redis) entry for one API key: absent or a wallet. -/
abbrev WalletStore := Option Wallet

/-- Embeds `createWallet` (src/lib/mongodb.ts lines 38-47): every new
wallet is inserted with balance 0.2. -/
def createWallet (userId : String) : Wallet :=
  { userId := userId, balance := 0.2 }

/-- Embeds the wallet route handler (src/unnamed/part_003 lines 36-39):
look up the wallet for the identity and create one when none exists. -/
def walletRouteLookup (userId : String) (existing : Option Wallet) : Wallet :=
  match existing with
  | some w => w
  | none => createWallet userId

/-- Embeds `updateWalletBalance` of src/lib/mongodb.ts (lines 66-77):
`$inc` the stored balance by a signed amount (used by the payment-credit
paths with a positive amount). -/
def updateMongoWalletBalance (balance amount : ℚ) : ℚ :=
  balance + amount

/-! ## Fast-store debit, first handler variant (src/api/chat.ts 90-119) -/

inductive LedgerError
  | walletNotFound
  | txFailed
deriving DecidableEq, Repr

/-- Embeds `updateWalletBalance` (src/api/chat.ts lines 90-119).  The
function WATCHes the wallet key, reads the wallet, computes
`newBalance = balance - cost` with no balance check, and commits through
`MULTI`/`EXEC`; `interfered` records whether another writer touched the
watched key between WATCH and EXEC, in which case `exec` returns null and
the code throws ("Transaction failed - wallet was modified").  On success
it returns the new store content and the new balance. -/
def updateWalletBalance (st : WalletStore) (cost : ℚ) (interfered : Bool) :
    Except LedgerError (WalletStore × ℚ) :=
  match st with
  | none => .error .walletNotFound
  | some w =>
    if interfered then .error .txFailed
    else
      let newBalance := w.balance - cost
      .ok (some { w with balance := newBalance }, newBalance)

/-! ## Gateway route branches, first handler variant (src/api/chat.ts) -/

inductive GatewayError
  | rateLimited
  | insufficientFunds
  | ledger (e : LedgerError)
deriving DecidableEq, Repr

/-- The billed part of a JSON response: `cost` and `remainingBalance`. -/
structure ChargeResult where
  cost : ℚ
  remainingBalance : ℚ
deriving DecidableEq, Repr

/-- Embeds the cached-response branch of the first handler variant
(src/api/chat.ts lines 181-202): after the rate-limit admission inside
`validateRequest`, compute the cost from the cached payload's
`usage.total_tokens`, return 402 without touching the store when
`wallet.balance < cost`, otherwise debit through `updateWalletBalance`.
`rlSuccess` is the rate limiter's verdict, `st` the fast-store wallet
entry, `wallet` the wallet read by `validateRequest`. -/
def cachedBranch (rlSuccess : Bool) (st : WalletStore) (wallet : Wallet)
    (model : String) (cachedTokens : ℕ) (interfered : Bool) :
    WalletStore × Except GatewayError ChargeResult :=
  if !rlSuccess then (st, .error .rateLimited)
  else
    let cost := calculateCost model cachedTokens
    if wallet.balance < cost then (st, .error .insufficientFunds)
    else
      match updateWalletBalance st cost interfered with
      | .error e => (st, .error (.ledger e))
      | .ok (st', nb) => (st', .ok { cost := cost, remainingBalance := nb })

/-- Embeds the unary (non-streaming, cache-miss) branch of the first
handler variant (src/api/chat.ts lines 254-290): the upstream call returns
a payload whose usage is `usageTokens`; the balance check happens after the
upstream call; on sufficient funds the response payload is cached (second
component is the cached usage figure) and the wallet debited. -/
def unaryBranch (rlSuccess : Bool) (st : WalletStore) (wallet : Wallet)
    (model : String) (usageTokens : ℕ) (interfered : Bool) :
    WalletStore × Option ℕ × Except GatewayError ChargeResult :=
  if !rlSuccess then (st, none, .error .rateLimited)
  else
    let cost := calculateCost model usageTokens
    if wallet.balance < cost then (st, none, .error .insufficientFunds)
    else
      match updateWalletBalance st cost interfered with
      | .error e => (st, some usageTokens, .error (.ledger e))
      | .ok (st', nb) => (st', some usageTokens, .ok { cost := cost, remainingBalance := nb })

/-! ## Streaming relay (src/api/chat.ts lines 208-253) -/

/-- A parsed SSE chunk: optional `usage.total_tokens` plus the rest of the
payload (opaque). -/
structure Chunk where
  usageTokens : Option ℕ
  content : String
deriving DecidableEq, Repr

/-- One line of an upstream SSE frame as seen by `parseSSEResponse`
(src/api/chat.ts lines 121-139): a `data: <json>` line whose JSON parses
to a chunk (`none` when `JSON.parse` throws), the `data: [DONE]` sentinel,
or a line not starting with `data: `. -/
inductive SSELine
  | frame (payload : Option Chunk)
  | doneMark
  | other
deriving DecidableEq, Repr

/-- Embeds `parseSSEResponse`: keep the successfully parsed payloads of
`data: ` lines, skipping the `[DONE]` sentinel, unparseable lines and
non-data lines. -/
def parseSSEResponse (lines : List SSELine) : List Chunk :=
  lines.filterMap (fun l =>
    match l with
    | .frame p => p
    | _ => none)

/-- Observable actions of the streaming handlers towards the caller, the
upstream and the store. `debit` records a committed fast-store debit. -/
inductive Action
  | forward (c : Chunk)
  | debit (cost : ℚ)
  | writeDone
  | endResponse
  | abortUpstream
deriving DecidableEq, Repr

/-- Embeds the `response.data.on('data')` handler (src/api/chat.ts lines
232-240): every parsed item overwrites `lastChunk` and is forwarded to the
caller. Returns the new `lastChunk` and the forwarding actions. -/
def streamData (lastChunk : Option Chunk) (items : List Chunk) :
    Option Chunk × List Action :=
  (items.foldl (fun _ c => some c) lastChunk, items.map Action.forward)

/-- Embeds the `response.data.on('end')` handler (src/api/chat.ts lines
242-249): when the retained `lastChunk` carries usage, compute the cost
from it and debit through `updateWalletBalance` (no balance check), then
write the `[DONE]` frame and end the response.  When the awaited debit
throws, the handler aborts before writing `[DONE]` (empty action list). -/
def streamEnd (st : WalletStore) (model : String) (lastChunk : Option Chunk)
    (interfered : Bool) : WalletStore × List Action :=
  match lastChunk with
  | some c =>
    match c.usageTokens with
    | some t =>
      let cost := calculateCost model t
      match updateWalletBalance st cost interfered with
      | .ok (st', _) => (st', [.debit cost, .writeDone, .endResponse])
      | .error _ => (st, [])
    | none => (st, [.writeDone, .endResponse])
  | none => (st, [.writeDone, .endResponse])

/-- Events a streaming session processes: an upstream data frame, the
client disconnecting (`req.on('close')`), or the upstream stream ending. -/
inductive StreamEvent
  | upstreamData (lines : List SSELine)
  | clientClose
  | upstreamEnd
deriving DecidableEq, Repr

/-- State of one streaming session: the fast-store entry, the retained
`lastChunk`, and whether `controller.abort()` has been called. -/
structure RelaySt where
  store : WalletStore
  lastChunk : Option Chunk
  aborted : Bool
deriving DecidableEq, Repr

/-- One event step of the streaming session (src/api/chat.ts lines
208-253): data frames are parsed and forwarded (after `controller.abort()`
the upstream response stream is destroyed, so no further data events are
delivered); a client disconnect triggers `controller.abort()`; the
upstream `end` event runs `streamEnd` on the retained chunk. -/
def stepStream (model : String) (interfered : Bool) (s : RelaySt)
    (e : StreamEvent) : RelaySt × List Action :=
  match e with
  | .upstreamData lines =>
    if s.aborted then (s, [])
    else
      let (lc, acts) := streamData s.lastChunk (parseSSEResponse lines)
      ({ s with lastChunk := lc }, acts)
  | .clientClose => ({ s with aborted := true }, [Action.abortUpstream])
  | .upstreamEnd =>
    let (st', acts) := streamEnd s.store model s.lastChunk interfered
    ({ s with store := st' }, acts)

/-- Runs a streaming session from a given state, accumulating actions. -/
def runStreamFrom (model : String) (interfered : Bool) :
    RelaySt → List StreamEvent → RelaySt × List Action
  | s, [] => (s, [])
  | s, e :: es =>
    ((runStreamFrom model interfered (stepStream model interfered s e).1 es).1,
      (stepStream model interfered s e).2 ++
        (runStreamFrom model interfered (stepStream model interfered s e).1 es).2)

/-- Runs a whole streaming session from the initial handler state. -/
def runStream (model : String) (interfered : Bool) (st0 : WalletStore)
    (events : List StreamEvent) : RelaySt × List Action :=
  runStreamFrom model interfered { store := st0, lastChunk := none, aborted := false } events

/-- True when the retained chunk (if any) carries no usage figure. -/
def noUsageOpt (lc : Option Chunk) : Bool :=
  match lc with
  | some c => c.usageTokens.isNone
  | none => true

/-- True when an event delivers no usage-carrying chunk. -/
def eventNoUsage : StreamEvent → Bool
  | .upstreamData lines => (parseSSEResponse lines).all (fun c => c.usageTokens.isNone)
  | _ => true

/-! ## Two concurrent debits through `updateWalletBalances`
(src/api/chat.ts lines 649-684)

`updateWalletBalances` reads the wallet with a plain `GET` and writes it
back with `MULTI`/`SET`/`EXEC` without any `WATCH`, so the write is
unconditional: it overwrites whatever the store holds at write time with
`readBalance - cost`.  Two concurrent debits are modelled as the
interleavings of their read and write steps over the shared balance. -/

inductive DebitStep
  | read1
  | write1
  | read2
  | write2
deriving DecidableEq, Repr

/-- Shared balance plus each debit's privately read balance. -/
structure TwoDebitState where
  balance : ℚ
  read1 : Option ℚ
  read2 : Option ℚ
deriving DecidableEq, Repr

/-- One step of one of the two debits: a read copies the shared balance
into the debit's local, an unconditional write stores
`localBalance - cost` (as `updateWalletBalances` does, with no
compare-and-swap). -/
def debitStep (d1 d2 : ℚ) (s : TwoDebitState) : DebitStep → TwoDebitState
  | .read1 => { s with read1 := some s.balance }
  | .write1 =>
    match s.read1 with
    | some b => { s with balance := b - d1 }
    | none => s
  | .read2 => { s with read2 := some s.balance }
  | .write2 =>
    match s.read2 with
    | some b => { s with balance := b - d2 }
    | none => s

/-- Final fast-store balance after executing an interleaving of the two
debits' steps from a starting balance. -/
def runDebits (d1 d2 start : ℚ) (sched : List DebitStep) : ℚ :=
  (sched.foldl (debitStep d1 d2) { balance := start, read1 := none, read2 := none }).balance

/-! ## The retry loop of `updateWalletBalances` (src/api/chat.ts 649-684) -/

/-- Environment of one attempt of the loop: what the `GET` returns, what
the store holds at the moment of the write-back (not consulted by the
code, whose write is unconditional), and whether the `MULTI`/`EXEC`
round-trip itself succeeds (it fails only on connection errors). -/
structure AttemptEnv where
  walletAtRead : Option Wallet
  walletAtWrite : Option Wallet
  execOk : Bool
deriving DecidableEq, Repr

/-- One attempt of the `updateWalletBalances` loop body: `GET` (missing
wallet throws), compute `newBalance = balance - cost`, then the
unconditional `MULTI`/`SET`/`EXEC` write — note that `walletAtWrite` is
ignored: the write overwrites the stored value even when it changed since
the read. -/
def attemptOnce (env : AttemptEnv) (cost : ℚ) : Except LedgerError ℚ :=
  match env.walletAtRead with
  | none => .error .walletNotFound
  | some w => if env.execOk then .ok (w.balance - cost) else .error .txFailed

/-- Modelled from the spec: the compare-and-swap write-back the spec
describes for the ledger debit ("succeed only if the stored value is
unchanged since step 1"), stated over the same attempt environment for
comparison with `attemptOnce`. -/
def casAttempt (env : AttemptEnv) (cost : ℚ) : Except LedgerError ℚ :=
  match env.walletAtRead with
  | none => .error .walletNotFound
  | some w =>
    if env.walletAtWrite = some w ∧ env.execOk then .ok (w.balance - cost)
    else .error .txFailed

/-- The fixed backoff of the retry loop, in milliseconds
(`setTimeout(resolve, 100)`). -/
def SLEEP_MS : ℕ := 100

/-- The retry loop of `updateWalletBalances`: `retries` starts at 3; each
iteration tries one attempt; on failure it decrements `retries`, rethrows
the caught error when they are exhausted, and otherwise sleeps 100 ms and
retries.  `i` indexes the attempt environments; the second component lists
the backoff delays actually performed. -/
def updateWBLoop (envs : ℕ → AttemptEnv) (cost : ℚ) :
    ℕ → ℕ → Except LedgerError ℚ × List ℕ
  | _, 0 => (.error .txFailed, [])
  | i, r + 1 =>
    match attemptOnce (envs i) cost with
    | .ok nb => (.ok nb, [])
    | .error e =>
      if r = 0 then (.error e, [])
      else
        let (res, sleeps) := updateWBLoop envs cost (i + 1) r
        (res, SLEEP_MS :: sleeps)

/-- Embeds `updateWalletBalances` (src/api/chat.ts lines 649-684): the
loop entered with `retries = 3`. -/
def updateWalletBalances (envs : ℕ → AttemptEnv) (cost : ℚ) :
    Except LedgerError ℚ × List ℕ :=
  updateWBLoop envs cost 0 3

/-! ## Sliding-window rate limiter (src/unnamed/part_000 lines 17-77)

The Redis sorted set `rate_limit:<userId>` is modelled as the list of
member scores (timestamps in seconds, as integers); members are unique
strings, so equal scores may repeat in the list. -/

structure RateConfig where
  requests : ℕ
  window : ℤ
deriving DecidableEq, Repr

/-- The fixed configuration `RATE_LIMIT`: 60 requests per 60 seconds. -/
def RATE_LIMIT : RateConfig := { requests := 60, window := 60 }

/-- The result shape of `rateLimit`; `degraded` embeds the optional
`error: 'Rate limiting temporarily unavailable'` field of the fail-open
branch. -/
structure RateLimitResult where
  success : Bool
  remaining : ℤ
  reset : ℤ
  limit : ℕ
  degraded : Option String
deriving DecidableEq, Repr

/-- The purge step `zremrangebyscore(key, 0, now - window)`: drop every
timestamp `t` with `0 ≤ t ≤ now - window` (an inclusive range). -/
def rlPurge (cfg : RateConfig) (state : List ℤ) (now : ℤ) : List ℤ :=
  state.filter (fun t => !(decide (0 ≤ t) && decide (t ≤ now - cfg.window)))

/-- Minimum score of a sorted-set state, as `zrange key 0 0 WITHSCORES`
reports it (`none` on an empty set). -/
def zminOf : List ℤ → Option ℤ
  | [] => none
  | x :: xs =>
    match zminOf xs with
    | none => some x
    | some m => some (min x m)

/-- Embeds the success path of `rateLimit` (src/unnamed/part_000 lines
17-64).  The pipeline runs, in order: the purge, `zcard` (so the count
excludes the current request), `zadd` of `now` (unconditionally — also
when the request will be rejected), and `expire`; then the oldest
surviving score (which now includes `now`) plus the window gives the reset
time, and the decision compares the count with the ceiling. -/
def rateLimitOk (cfg : RateConfig) (state : List ℤ) (now : ℤ) :
    List ℤ × RateLimitResult :=
  let purged := rlPurge cfg state now
  let count := purged.length
  let newState := purged ++ [now]
  let resetTime :=
    match zminOf newState with
    | some m => m + cfg.window
    | none => now + cfg.window
  (newState,
    if cfg.requests ≤ count then
      { success := false, remaining := 0, reset := resetTime,
        limit := cfg.requests, degraded := none }
    else
      { success := true, remaining := (cfg.requests : ℤ) - count, reset := resetTime,
        limit := cfg.requests, degraded := none })

/-- Embeds `rateLimit` including its catch branch (src/unnamed/part_000
lines 65-76): when the counting store is unreachable the function fails
open, returning success with `remaining 1`, a reset one hour out, and the
degraded-service marker, and the stored window is untouched. -/
def rateLimitRun (cfg : RateConfig) (storeReachable : Bool) (state : List ℤ)
    (now : ℤ) : List ℤ × RateLimitResult :=
  if storeReachable then rateLimitOk cfg state now
  else
    (state,
      { success := true, remaining := 1, reset := now + 3600,
        limit := cfg.requests,
        degraded := some "Rate limiting temporarily unavailable" })

/-! ## Second handler variant (src/api/chat.ts lines 307-579)

This variant reports costs but, on a cache hit, never writes the wallet:
its cached branch (lines 447-466) only computes `wallet.balance - cost`
for the response, while its unary branch (lines 522-563) caches the
payload and writes the debited wallet to Redis and the in-process cache. -/

/-- A write performed against the shared stores by the second variant. -/
inductive StoreWrite
  | setCache (tokens : ℕ)
  | setWallet (w : Wallet)
deriving DecidableEq, Repr

/-- Embeds the cached-response branch of the second handler variant
(src/api/chat.ts lines 447-466): rate-limit admission, cost from the
cached usage, 402 on insufficient balance — and no store write at all on
success. -/
def cachedBranchV2 (rlSuccess : Bool) (wallet : Wallet) (model : String)
    (cachedTokens : ℕ) : List StoreWrite × Except GatewayError ChargeResult :=
  if !rlSuccess then ([], .error .rateLimited)
  else
    let cost := calculateCost model cachedTokens
    if wallet.balance < cost then ([], .error .insufficientFunds)
    else ([], .ok { cost := cost, remainingBalance := wallet.balance - cost })

/-- Embeds the unary branch of the second handler variant (src/api/chat.ts
lines 522-563): after the balance check it caches the payload and writes
the debited wallet. -/
def unaryBranchV2 (rlSuccess : Bool) (wallet : Wallet) (model : String)
    (usageTokens : ℕ) : List StoreWrite × Except GatewayError ChargeResult :=
  if !rlSuccess then ([], .error .rateLimited)
  else
    let cost := calculateCost model usageTokens
    if wallet.balance < cost then ([], .error .insufficientFunds)
    else
      ([.setCache usageTokens, .setWallet { wallet with balance := wallet.balance - cost }],
        .ok { cost := cost, remainingBalance := wallet.balance - cost })

/-! ## Helper lemmas -/

/-- Concrete cost of 1000 tokens on `gpt-4`: 0.03 · 0.75 = 0.0225. -/
lemma cost_gpt4_1000 : calculateCost "gpt-4" 1000 = 9/400 := by
  simp +decide [calculateCost, discountedPricing, originalPricing]
  norm_num

/-- Concrete cost of 1000 tokens on `gpt-4o`: 0.015 · 0.75 = 0.01125. -/
lemma cost_gpt4o_1000 : calculateCost "gpt-4o" 1000 = 9/800 := by
  simp +decide [calculateCost, discountedPricing, originalPricing]
  norm_num

/-- The `lastChunk` fold keeps the final list element (or the previous
value on an empty list). -/
lemma foldl_lastChunk (items : List Chunk) (lc : Option Chunk) :
    items.foldl (fun _ c => some c) lc =
      (match items.getLast? with
        | some c => some c
        | none => lc) := by
  induction items generalizing lc with
  | nil => rfl
  | cons a as ih =>
    cases as with
    | nil => rfl
    | cons b bs =>
      rw [List.foldl_cons, List.getLast?_cons_cons]
      exact ih (some a)

/-! ## C1, C2 theorems -/

/-- C1 (counterexample): a streaming request whose wallet balance
(0.001) is below the computed cost (0.0225 for 1000 `gpt-4` tokens) is
debited anyway by the end-of-stream handler — the fast store is changed
and no `InsufficientFunds` error is produced, refuting the claim for the
streaming path. -/
theorem c1_counterexample :
    (Wallet.mk "u" (1/1000)).balance < calculateCost "gpt-4" 1000 ∧
    streamEnd (some ⟨"u", 1/1000⟩) "gpt-4" (some ⟨some 1000, "x"⟩) false =
      (some ⟨"u", 1/1000 - calculateCost "gpt-4" 1000⟩,
        [Action.debit (calculateCost "gpt-4" 1000), Action.writeDone,
          Action.endResponse]) := by
  refine ⟨?_, rfl⟩
  rw [show (Wallet.mk "u" (1/1000)).balance = 1/1000 from rfl, cost_gpt4_1000]
  norm_num

/-- C1 (amended): for cached and unary requests whose wallet balance at
charge time is below the computed cost, the gateway returns
`InsufficientFunds` and performs no debit — the fast-store entry is
unchanged.  (The streaming path, by contrast, debits without any balance
check.) -/
theorem c1_insufficient_funds_no_debit (st : WalletStore) (w : Wallet)
    (model : String) (tokens : ℕ) (interfered : Bool)
    (h : w.balance < calculateCost model tokens) :
    cachedBranch true st w model tokens interfered = (st, .error .insufficientFunds) ∧
    unaryBranch true st w model tokens interfered = (st, none, .error .insufficientFunds) := by
  constructor <;> simp [cachedBranch, unaryBranch, h]

/-- C1 witness: a zero-balance wallet and a 1000-token `gpt-4` charge. -/
theorem c1_insufficient_funds_no_debit_witness :
    cachedBranch true (some ⟨"u", 0⟩) ⟨"u", 0⟩ "gpt-4" 1000 false =
      ((some ⟨"u", 0⟩ : WalletStore), .error .insufficientFunds) ∧
    unaryBranch true (some ⟨"u", 0⟩) ⟨"u", 0⟩ "gpt-4" 1000 false =
      ((some ⟨"u", 0⟩ : WalletStore), none, .error .insufficientFunds) :=
  c1_insufficient_funds_no_debit _ _ _ _ _
    (by rw [show (Wallet.mk "u" 0).balance = 0 from rfl, cost_gpt4_1000]; norm_num)

/-- C2 (counterexample): a committed fast-store debit of 0.0225 against a
balance of 0.001 succeeds and leaves a negative balance, refuting "never
negative after a committed debit". -/
theorem c2_counterexample :
    updateWalletBalance (some ⟨"u", 1/1000⟩) (9/400) false =
      .ok (some ⟨"u", 1/1000 - 9/400⟩, 1/1000 - 9/400) ∧
    (1/1000 - 9/400 : ℚ) < 0 := ⟨rfl, by norm_num⟩

/-- C2 (amended): every committed fast-store debit writes exactly the
balance read at debit time minus the cost (the balance changes by no other
shape), and the committed balance is non-negative whenever the read
balance covered the cost; the streaming path commits without that check,
so a committed debit can leave a negative balance. -/
theorem c2_committed_debit_shape (w : Wallet) (cost : ℚ) (interfered : Bool)
    (st' : WalletStore) (nb : ℚ)
    (h : updateWalletBalance (some w) cost interfered = .ok (st', nb)) :
    st' = some { w with balance := w.balance - cost } ∧
    nb = w.balance - cost ∧ (cost ≤ w.balance → 0 ≤ nb) := by
  cases interfered with
  | true => simp [updateWalletBalance] at h
  | false =>
    simp only [updateWalletBalance, Bool.false_eq_true, if_false, Except.ok.injEq,
      Prod.mk.injEq] at h
    refine ⟨h.1.symm, h.2.symm, fun hc => ?_⟩
    rw [← h.2]
    exact sub_nonneg.mpr hc

/-- C2 witness: a covered debit (cost 0.5 against balance 1) commits a
non-negative balance. -/
theorem c2_committed_debit_shape_witness : (0:ℚ) ≤ (1:ℚ) - 1/2 :=
  (c2_committed_debit_shape ⟨"u", 1⟩ (1/2) false (some ⟨"u", (1:ℚ) - 1/2⟩)
    ((1:ℚ) - 1/2) rfl).2.2 (by norm_num)

/-! ## C10 theorem -/

/-- C10: `createWallet` always inserts a wallet with balance exactly 0.2,
and the wallet route's first retrieval for an identity with no wallet
creates one, reporting balance 0.2 (= 1/5) before any credit. -/
theorem c10_new_wallet_balance (u1 u2 : String) :
    (createWallet u1).balance = 0.2 ∧
    walletRouteLookup u2 none = createWallet u2 ∧
    (walletRouteLookup u2 none).balance = 1/5 := by
  refine ⟨rfl, rfl, ?_⟩
  show (0.2 : ℚ) = 1/5
  norm_num

/-! ## C3, C4 theorems -/

/-- C3 (counterexample): with starting balance 10 and debits 3 and 4
(sufficient funds), the interleaving read1-read2-write1-write2 of two
`updateWalletBalances` calls leaves the fast store at 6, not
10 − 3 − 4 = 3: the unconditional write-back loses the first debit. -/
theorem c3_counterexample :
    (3:ℚ) + 4 ≤ 10 ∧
    runDebits 3 4 10 [.read1, .read2, .write1, .write2] = 6 ∧
    (6:ℚ) ≠ 10 - 3 - 4 := by
  refine ⟨by norm_num, by norm_num [runDebits, debitStep], by norm_num⟩

/-- C3 (amended): two debits against the same identity with sufficient
starting balance leave the fast store at start − d1 − d2 when they execute
serially (either order); interleaved executions can lose an update because
`updateWalletBalances` writes back unconditionally. -/
theorem c3_serialized_debits (d1 d2 start : ℚ) (h : d1 + d2 ≤ start) :
    runDebits d1 d2 start [.read1, .write1, .read2, .write2] = start - d1 - d2 ∧
    runDebits d1 d2 start [.read2, .write2, .read1, .write1] = start - d1 - d2 := by
  constructor <;> (simp [runDebits, debitStep]; try ring)

/-- C3 witness: debits 3 and 4 against balance 10, serial order. -/
theorem c3_serialized_debits_witness :
    runDebits 3 4 10 [.read1, .write1, .read2, .write2] = 10 - 3 - 4 ∧
    runDebits 3 4 10 [.read2, .write2, .read1, .write1] = 10 - 3 - 4 :=
  c3_serialized_debits 3 4 10 (by norm_num)

/-- C4 (counterexample): one attempt of `updateWalletBalances` succeeds
(returning 10 − 1) even though the stored value at write time differs from
the value read — the write-back is not conditional on the stored value
being unchanged, refuting the compare-and-swap part of the claim.  Under
the compare-and-swap semantics the spec describes (`casAttempt`), the same
attempt environment fails. -/
theorem c4_counterexample :
    (AttemptEnv.mk (some ⟨"u", 10⟩) (some ⟨"u", 5⟩) true).walletAtWrite ≠
      (AttemptEnv.mk (some ⟨"u", 10⟩) (some ⟨"u", 5⟩) true).walletAtRead ∧
    attemptOnce ⟨some ⟨"u", 10⟩, some ⟨"u", 5⟩, true⟩ 1 = .ok (10 - 1) ∧
    casAttempt ⟨some ⟨"u", 10⟩, some ⟨"u", 5⟩, true⟩ 1 = .error .txFailed := by
  refine ⟨?_, rfl, by simp [casAttempt]⟩
  simp only [ne_eq, Option.some.injEq, Wallet.mk.injEq, not_and]
  intro _
  norm_num

/-- C4 (amended): `updateWalletBalances` reads the balance, computes
newBalance = balance − amount, and writes it back unconditionally (the
`MULTI`/`SET`/`EXEC` write is not compare-and-swap: no key is watched);
it retries the whole attempt on store errors only, making at most 3
attempts with a fixed 100 ms backoff between consecutive attempts, and
fails by rethrowing the last attempt's store error after exhausting the
retries. -/
theorem c4_retry_loop (envs : ℕ → AttemptEnv) (cost : ℚ) :
    updateWalletBalances envs cost =
      (match attemptOnce (envs 0) cost with
        | .ok nb => (.ok nb, [])
        | .error _ =>
          match attemptOnce (envs 1) cost with
          | .ok nb => (.ok nb, [SLEEP_MS])
          | .error _ =>
            match attemptOnce (envs 2) cost with
            | .ok nb => (.ok nb, [SLEEP_MS, SLEEP_MS])
            | .error e => (.error e, [SLEEP_MS, SLEEP_MS])) := by
  rcases h0 : attemptOnce (envs 0) cost with e0 | n0 <;>
    rcases h1 : attemptOnce (envs 1) cost with e1 | n1 <;>
      rcases h2 : attemptOnce (envs 2) cost with e2 | n2 <;>
        simp [updateWalletBalances, updateWBLoop, h0, h1, h2]

/-! ## C5 theorems -/

/-- C5 (counterexample): when a usage-carrying chunk is followed by a
chunk without usage, the data handler retains the final chunk (not the
last usage-carrying one), and the end handler then performs no debit and
leaves the store unchanged — refuting "retains the last chunk that carries
usage information ... cost is computed from that retained chunk". -/
theorem c5_counterexample :
    (streamData none [(⟨some 100, "a"⟩ : Chunk), ⟨none, "b"⟩]).1 = some ⟨none, "b"⟩ ∧
    (Chunk.mk (some 100) "a").usageTokens = some 100 ∧
    streamEnd (some ⟨"u", 1⟩) "gpt-4o"
        (streamData none [(⟨some 100, "a"⟩ : Chunk), ⟨none, "b"⟩]).1 false =
      (some ⟨"u", 1⟩, [Action.writeDone, Action.endResponse]) :=
  ⟨rfl, rfl, rfl⟩

/-- C5 (amended): the relay forwards every parsed chunk and retains the
last parsed chunk (whether or not it carries usage); on stream completion,
when the retained chunk does carry usage, the cost is computed from that
chunk's usage figure and the debit is committed before the terminal
`[DONE]` frame and the end of the response. -/
theorem c5_stream_retention (lc : Option Chunk) (items : List Chunk)
    (w : Wallet) (model : String) (t : ℕ) (content : String) :
    (streamData lc items).2 = items.map Action.forward ∧
    (streamData lc items).1 =
      (match items.getLast? with
        | some c => some c
        | none => lc) ∧
    streamEnd (some w) model (some ⟨some t, content⟩) false =
      (some ⟨w.userId, w.balance - calculateCost model t⟩,
        [Action.debit (calculateCost model t), Action.writeDone,
          Action.endResponse]) :=
  ⟨rfl, foldl_lastChunk items lc, rfl⟩

/-! ## C7, C8 theorems -/

/-- C7 (counterexample): with ceiling 2 and a 10-second window, the
admitted request at t = 1 reports `remaining = 1`, not 0 as the claim
states, and the rejected request at t = 2 is still recorded — the window
state grows from [0, 1] to [0, 1, 2] — refuting "rejects without recording
the request". -/
theorem c7_counterexample :
    (rateLimitOk ⟨2, 10⟩ [0] 1).2.success = true ∧
    (rateLimitOk ⟨2, 10⟩ [0] 1).2.remaining = 1 ∧
    (rateLimitOk ⟨2, 10⟩ [0, 1] 2).2.success = false ∧
    (rateLimitOk ⟨2, 10⟩ [0, 1] 2).1 = [0, 1, 2] ∧
    (rateLimitOk ⟨2, 10⟩ [0, 1] 2).1 ≠ [0, 1] := by decide

/-- C8: when the counting store is unreachable, `rateLimit` fails open —
the request is admitted (`success = true`) with the degraded-service
marker, and the stored window is untouched. -/
theorem c8_fail_open (cfg : RateConfig) (state : List ℤ) (now : ℤ) :
    (rateLimitRun cfg false state now).2.success = true ∧
    (rateLimitRun cfg false state now).2.degraded =
      some "Rate limiting temporarily unavailable" ∧
    (rateLimitRun cfg false state now).1 = state := by
  simp [rateLimitRun]

/-! ## C9 theorems -/

/-- C9 (counterexample): in the second handler variant, a cache hit with
sufficient balance reports a cost but performs no store write at all,
while the original cache-missed call for the same fingerprint writes the
cached payload and the debited wallet — the cache hit does not perform the
same debit as the original call. -/
theorem c9_counterexample :
    (cachedBranchV2 true ⟨"u", 1⟩ "gpt-4o" 1000).1 = [] ∧
    (unaryBranchV2 true ⟨"u", 1⟩ "gpt-4o" 1000).1 =
      [.setCache 1000, .setWallet ⟨"u", 1 - 9/800⟩] ∧
    (unaryBranchV2 true ⟨"u", 1⟩ "gpt-4o" 1000).1 ≠ [] ∧
    (cachedBranchV2 true ⟨"u", 1⟩ "gpt-4o" 1000).2 =
      .ok ⟨9/800, 1 - 9/800⟩ := by
  refine ⟨?_, ?_, ?_, ?_⟩ <;>
    norm_num [cachedBranchV2, unaryBranchV2, cost_gpt4o_1000] <;> simp

/-- C9 (amended): in the first handler variant a cache hit goes through
the same rate-limit admission, balance check and `updateWalletBalance`
debit as the cache-missed unary call with the same usage figure: for
identical wallet state the two leave the fast store identical and report
identical cost and remaining balance, and a rate-limited identity is
rejected on both paths.  (In the second handler variant the cache hit
reports the same cost but performs no wallet write — see the
counterexample.) -/
theorem c9_cache_hit_billing (rl : Bool) (st : WalletStore) (w : Wallet)
    (model : String) (tokens : ℕ) (interfered : Bool) :
    (cachedBranch rl st w model tokens interfered).1 =
      (unaryBranch rl st w model tokens interfered).1 ∧
    (cachedBranch rl st w model tokens interfered).2 =
      (unaryBranch rl st w model tokens interfered).2.2 ∧
    cachedBranch false st w model tokens interfered = (st, .error .rateLimited) := by
  cases rl with
  | false => exact ⟨rfl, rfl, rfl⟩
  | true =>
    refine ⟨?_, ?_, rfl⟩ <;>
      · simp only [cachedBranch, unaryBranch, Bool.not_true, Bool.false_eq_true, if_false]
        split
        · rfl
        · rcases h : updateWalletBalance st (calculateCost model tokens) interfered with e | p
          · simp [h]
          · simp [h]

/-! ## C6 machinery and theorem -/

/-- When every chunk of a list lacks usage and the previous retained chunk
lacks usage, the retained chunk after the fold still lacks usage. -/
lemma noUsage_foldl (items : List Chunk) (lc : Option Chunk)
    (hi : items.all (fun c => c.usageTokens.isNone) = true)
    (hl : noUsageOpt lc = true) :
    noUsageOpt (items.foldl (fun _ c => some c) lc) = true := by
  induction items generalizing lc with
  | nil => exact hl
  | cons a as ih =>
    simp only [List.all_cons, Bool.and_eq_true] at hi
    exact ih (some a) hi.2 hi.1

/-- The end handler performs no debit and leaves the store unchanged when
the retained chunk carries no usage. -/
lemma streamEnd_noUsage (st : WalletStore) (model : String) (lc : Option Chunk)
    (interfered : Bool) (hl : noUsageOpt lc = true) :
    streamEnd st model lc interfered = (st, [Action.writeDone, Action.endResponse]) := by
  cases lc with
  | none => rfl
  | some c =>
    cases hc : c.usageTokens with
    | none => simp [streamEnd, hc]
    | some t => simp [noUsageOpt, hc] at hl

/-- A step on a usage-free event preserves the store, keeps the retained
chunk usage-free, and emits no debit. -/
lemma stepStream_noUsage (model : String) (interfered : Bool) (s : RelaySt)
    (e : StreamEvent) (hl : noUsageOpt s.lastChunk = true)
    (he : eventNoUsage e = true) :
    (stepStream model interfered s e).1.store = s.store ∧
    noUsageOpt (stepStream model interfered s e).1.lastChunk = true ∧
    ∀ q, Action.debit q ∉ (stepStream model interfered s e).2 := by
  cases e with
  | upstreamData lines =>
    by_cases ha : s.aborted
    · simp [stepStream, ha, hl]
    · refine ⟨by simp [stepStream, ha, streamData], ?_, ?_⟩
      · simpa [stepStream, ha, streamData] using
          noUsage_foldl (parseSSEResponse lines) s.lastChunk he hl
      · intro q
        simp [stepStream, ha, streamData]
  | clientClose => simp [stepStream, hl]
  | upstreamEnd =>
    rw [show stepStream model interfered s .upstreamEnd =
      ({ s with store := (streamEnd s.store model s.lastChunk interfered).1 },
        (streamEnd s.store model s.lastChunk interfered).2) from rfl,
      streamEnd_noUsage s.store model s.lastChunk interfered hl]
    refine ⟨rfl, hl, ?_⟩
    intro q
    simp

/-- A step from an aborted session (with a usage-free retained chunk)
preserves the store and abort flag, keeps the chunk usage-free, and emits
no debit. -/
lemma stepStream_aborted (model : String) (interfered : Bool) (s : RelaySt)
    (e : StreamEvent) (ha : s.aborted = true) (hl : noUsageOpt s.lastChunk = true) :
    (stepStream model interfered s e).1.store = s.store ∧
    (stepStream model interfered s e).1.aborted = true ∧
    noUsageOpt (stepStream model interfered s e).1.lastChunk = true ∧
    ∀ q, Action.debit q ∉ (stepStream model interfered s e).2 := by
  cases e with
  | upstreamData lines => simp [stepStream, ha, hl]
  | clientClose => simp [stepStream, hl]
  | upstreamEnd =>
    rw [show stepStream model interfered s .upstreamEnd =
      ({ s with store := (streamEnd s.store model s.lastChunk interfered).1 },
        (streamEnd s.store model s.lastChunk interfered).2) from rfl,
      streamEnd_noUsage s.store model s.lastChunk interfered hl]
    refine ⟨rfl, ha, hl, ?_⟩
    intro q
    simp

/-- Running usage-free events preserves the store, keeps the retained
chunk usage-free, and emits no debit. -/
lemma runStreamFrom_noUsage (model : String) (interfered : Bool)
    (events : List StreamEvent) (s : RelaySt)
    (hl : noUsageOpt s.lastChunk = true)
    (he : events.all eventNoUsage = true) :
    (runStreamFrom model interfered s events).1.store = s.store ∧
    noUsageOpt (runStreamFrom model interfered s events).1.lastChunk = true ∧
    ∀ q, Action.debit q ∉ (runStreamFrom model interfered s events).2 := by
  induction events generalizing s with
  | nil => exact ⟨rfl, hl, by intro q; simp [runStreamFrom]⟩
  | cons e es ih =>
    simp only [List.all_cons, Bool.and_eq_true] at he
    obtain ⟨h1, h2, h3⟩ :=
      stepStream_noUsage model interfered s e hl he.1
    obtain ⟨g1, g2, g3⟩ :=
      ih (stepStream model interfered s e).1 h2 he.2
    refine ⟨by rw [runStreamFrom]; exact g1.trans h1, by rw [runStreamFrom]; exact g2, ?_⟩
    intro q
    rw [runStreamFrom]
    simp only [List.mem_append, not_or]
    exact ⟨h3 q, g3 q⟩

/-- Running any events from an aborted session with a usage-free retained
chunk preserves the store and emits no debit. -/
lemma runStreamFrom_aborted (model : String) (interfered : Bool)
    (events : List StreamEvent) (s : RelaySt)
    (ha : s.aborted = true) (hl : noUsageOpt s.lastChunk = true) :
    (runStreamFrom model interfered s events).1.store = s.store ∧
    ∀ q, Action.debit q ∉ (runStreamFrom model interfered s events).2 := by
  induction events generalizing s with
  | nil => exact ⟨rfl, by intro q; simp [runStreamFrom]⟩
  | cons e es ih =>
    obtain ⟨h1, h2, h3, h4⟩ :=
      stepStream_aborted model interfered s e ha hl
    obtain ⟨g1, g2⟩ := ih (stepStream model interfered s e).1 h2 h3
    refine ⟨by rw [runStreamFrom]; exact g1.trans h1, ?_⟩
    intro q
    rw [runStreamFrom]
    simp only [List.mem_append, not_or]
    exact ⟨h4 q, g2 q⟩

/-- Generalized cancellation lemma: from any state with a usage-free
retained chunk, a session of usage-free events followed by a client
disconnect and then anything at all emits the abort, emits no debit, and
preserves the store. -/
lemma runStreamFrom_cancel (model : String) (interfered : Bool)
    (pre post : List StreamEvent) (s : RelaySt)
    (hl : noUsageOpt s.lastChunk = true)
    (hpre : pre.all eventNoUsage = true) :
    Action.abortUpstream ∈
      (runStreamFrom model interfered s (pre ++ StreamEvent.clientClose :: post)).2 ∧
    (∀ q, Action.debit q ∉
      (runStreamFrom model interfered s (pre ++ StreamEvent.clientClose :: post)).2) ∧
    (runStreamFrom model interfered s (pre ++ StreamEvent.clientClose :: post)).1.store
      = s.store := by
  induction pre generalizing s with
  | nil =>
    obtain ⟨h1, h2⟩ := runStreamFrom_aborted model interfered post
      { s with aborted := true } rfl hl
    refine ⟨?_, ?_, ?_⟩
    · rw [List.nil_append, runStreamFrom]
      simp [stepStream]
    · intro q
      rw [List.nil_append, runStreamFrom]
      simp only [List.mem_append, not_or]
      exact ⟨by simp [stepStream], by simpa [stepStream] using h2 q⟩
    · rw [List.nil_append, runStreamFrom]
      simpa [stepStream] using h1
  | cons e es ih =>
    simp only [List.all_cons, Bool.and_eq_true] at hpre
    obtain ⟨h1, h2, h3⟩ := stepStream_noUsage model interfered s e hl hpre.1
    obtain ⟨g1, g2, g3⟩ := ih (stepStream model interfered s e).1 h2 hpre.2
    rw [List.cons_append, runStreamFrom]
    refine ⟨by simp [g1], ?_, g3.trans h1⟩
    intro q
    simp only [List.mem_append, not_or]
    exact ⟨h3 q, g2 q⟩

/-- C6: when the client disconnects before the stream ends and no
usage-carrying frame has arrived before the disconnect, the gateway aborts
the outbound upstream request and no debit ever occurs — the fast store is
unchanged by the whole session, however the session continues after the
abort. -/
theorem c6_cancel_before_usage (model : String) (interfered : Bool)
    (st0 : WalletStore) (pre post : List StreamEvent)
    (hpre : pre.all eventNoUsage = true) :
    Action.abortUpstream ∈
      (runStream model interfered st0 (pre ++ StreamEvent.clientClose :: post)).2 ∧
    (∀ q, Action.debit q ∉
      (runStream model interfered st0 (pre ++ StreamEvent.clientClose :: post)).2) ∧
    (runStream model interfered st0 (pre ++ StreamEvent.clientClose :: post)).1.store
      = st0 :=
  runStreamFrom_cancel model interfered pre post
    { store := st0, lastChunk := none, aborted := false } rfl hpre

/-- C6 witness: one forwarded usage-free chunk, then the client
disconnects, then the upstream end event fires. -/
theorem c6_cancel_before_usage_witness :
    Action.abortUpstream ∈
      (runStream "gpt-4o" false (some ⟨"u", 1⟩)
        ([StreamEvent.upstreamData [SSELine.frame (some ⟨none, "hello"⟩)]] ++
          StreamEvent.clientClose :: [StreamEvent.upstreamEnd])).2 ∧
    (runStream "gpt-4o" false (some ⟨"u", 1⟩)
        ([StreamEvent.upstreamData [SSELine.frame (some ⟨none, "hello"⟩)]] ++
          StreamEvent.clientClose :: [StreamEvent.upstreamEnd])).1.store
      = some ⟨"u", 1⟩ :=
  ⟨(c6_cancel_before_usage "gpt-4o" false (some ⟨"u", 1⟩)
      [StreamEvent.upstreamData [SSELine.frame (some ⟨none, "hello"⟩)]]
      [StreamEvent.upstreamEnd] (by decide)).1,
    (c6_cancel_before_usage "gpt-4o" false (some ⟨"u", 1⟩)
      [StreamEvent.upstreamData [SSELine.frame (some ⟨none, "hello"⟩)]]
      [StreamEvent.upstreamEnd] (by decide)).2.2⟩

/-! ## C7 amended theorem -/

/-- Minimum of a list extended by one element on the right. -/
lemma zminOf_append_singleton (l : List ℤ) (x : ℤ) :
    zminOf (l ++ [x]) =
      some (match zminOf l with
        | some m => min m x
        | none => x) := by
  induction l with
  | nil => rfl
  | cons a as ih =>
    cases h : zminOf as with
    | none => simp [zminOf, ih, h]
    | some m => simp [zminOf, ih, h, min_assoc]

/-- The minimum of a list is bounded by any bound on its elements. -/
lemma zminOf_le (l : List ℤ) (x m : ℤ) (hall : ∀ t ∈ l, t ≤ x)
    (hm : zminOf l = some m) : m ≤ x := by
  induction l generalizing m with
  | nil => simp [zminOf] at hm
  | cons a as ih =>
    have hax : a ≤ x := hall a (by simp)
    cases h : zminOf as with
    | none =>
      simp only [zminOf, h, Option.some.injEq] at hm
      omega
    | some m' =>
      have hm' : m' ≤ x := ih m' (fun t ht => hall t (by simp [ht])) h
      simp only [zminOf, h, Option.some.injEq] at hm
      omega

/-- C7 (amended): on each call the rate limiter drops the timestamps `t`
with `0 ≤ t ≤ now − window` (an inclusive bound), counts the survivors,
and then always records `now` — also when the request is rejected; it
rejects exactly when the survivor count (which excludes the current
request) is at or above the ceiling, reports `remaining = ceiling − count`
on admission, and reports the reset time as the oldest surviving timestamp
plus the window (or `now + window` when none survive).  In the concrete
ceiling-2 / 10-second scenario the requests at t = 0 and t = 1 are
admitted, the request at t = 2 is rejected with reset time 10 but is still
recorded, and the request at t = 11 is admitted. -/
theorem c7_sliding_window (cfg : RateConfig) (state : List ℤ) (now : ℤ)
    (hmono : state.all (fun t => decide (t ≤ now)) = true) :
    (rateLimitOk cfg state now).1 = rlPurge cfg state now ++ [now] ∧
    ((rateLimitOk cfg state now).2.success = true ↔
      (rlPurge cfg state now).length < cfg.requests) ∧
    ((rlPurge cfg state now).length < cfg.requests →
      (rateLimitOk cfg state now).2.remaining =
        (cfg.requests : ℤ) - (rlPurge cfg state now).length) ∧
    (rateLimitOk cfg state now).2.reset =
      (match zminOf (rlPurge cfg state now) with
        | some m => m + cfg.window
        | none => now + cfg.window) ∧
    (rateLimitOk ⟨2, 10⟩ [] 0).2.success = true ∧
    (rateLimitOk ⟨2, 10⟩ [] 0).1 = [0] ∧
    (rateLimitOk ⟨2, 10⟩ [0] 1).2.success = true ∧
    (rateLimitOk ⟨2, 10⟩ [0] 1).1 = [0, 1] ∧
    (rateLimitOk ⟨2, 10⟩ [0, 1] 2).2.success = false ∧
    (rateLimitOk ⟨2, 10⟩ [0, 1] 2).2.reset = 10 ∧
    (rateLimitOk ⟨2, 10⟩ [0, 1] 2).1 = [0, 1, 2] ∧
    (rateLimitOk ⟨2, 10⟩ [0, 1, 2] 11).2.success = true := by
  have hall : ∀ t ∈ rlPurge cfg state now, t ≤ now := by
    intro t ht
    have hts := List.mem_of_mem_filter ht
    simp only [List.all_eq_true, decide_eq_true_eq] at hmono
    exact hmono t hts
  refine ⟨rfl, ?_, ?_, ?_, by decide, by decide, by decide, by decide,
    by decide, by decide, by decide, by decide⟩
  · by_cases hc : cfg.requests ≤ (rlPurge cfg state now).length
    · simp [rateLimitOk, hc, Nat.not_lt.mpr hc]
    · simp [rateLimitOk, hc, Nat.lt_of_not_le hc]
  · intro hlt
    simp [rateLimitOk, Nat.not_le.mpr hlt]
  · have hreset : (rateLimitOk cfg state now).2.reset =
        (match zminOf (rlPurge cfg state now ++ [now]) with
          | some m => m + cfg.window
          | none => now + cfg.window) := by
      by_cases hc : cfg.requests ≤ (rlPurge cfg state now).length <;>
        simp [rateLimitOk, hc]
    rw [hreset, zminOf_append_singleton]
    cases h : zminOf (rlPurge cfg state now) with
    | none => rfl
    | some m =>
      have : m ≤ now := zminOf_le _ now m hall h
      simp [min_eq_left this]

/-- C7 witness: the t = 2 call of the scenario, with survivors [0, 1]. -/
theorem c7_sliding_window_witness :
    (rateLimitOk ⟨2, 10⟩ [0, 1] 2).1 = rlPurge ⟨2, 10⟩ [0, 1] 2 ++ [2] ∧
    (rateLimitOk ⟨2, 10⟩ [0, 1] 2).2.reset =
      (match zminOf (rlPurge ⟨2, 10⟩ [0, 1] 2) with
        | some m => m + (10:ℤ)
        | none => (2:ℤ) + 10) :=
  ⟨(c7_sliding_window ⟨2, 10⟩ [0, 1] 2 (by decide)).1,
    (c7_sliding_window ⟨2, 10⟩ [0, 1] 2 (by decide)).2.2.2.1⟩

end ChargeAI
